import Mathlib

/-!
Shallow embedding of the inventory core of `app/websocket_server.py`,
`app/record_handler.py` and `app/models.py`: the single `Tool` row, the
Borrow / Return / SensorUpdate handlers with the messages they emit (unicast
reply, broadcast, history-collaborator invocation), and the borrow-record
collaborator.  Python ints are `Int`; the sensor weight and `unit_weight`
(Python floats) are `ℚ`; timestamps are abstract `Nat` ticks supplied by the
caller; the database session commit is modelled by returning the updated
state.
-/

namespace ToolHub

/-- The `tools` row of `app/models.py` (`class Tool`): the columns the
handlers read and write.  `status` holds the literal strings the code
assigns ("正常" / "低库存" / "无库存"). -/
structure Tool where
  total_quantity : Int
  current_quantity : Int
  threshold : Int
  unit_weight : ℚ
  status : String
  last_updated : Nat
deriving DecidableEq, Repr

/-- A `borrow_records` row of `app/models.py` (`class BorrowRecord`),
restricted to the columns `record_handler.py` reads and writes. -/
structure RecordEntry where
  employee_id : Int
  tool_id : Int
  action : String
  quantity : Int
  borrow_time : Nat
  return_time : Option Nat
deriving DecidableEq, Repr

/-- The structured content of the outbound messages the handlers emit
(`websocket_server.py`): each constructor keeps exactly the data-bearing
fields of the corresponding JSON payload. -/
inductive Msg where
  | borrowInvalidQty : Msg
  | borrowNoTool : Msg
  | borrowInsufficient (remaining : Int) : Msg
  | borrowSuccess (borrowed remaining : Int) (status : String) : Msg
  | returnInvalidQty : Msg
  | returnNoTool : Msg
  | returnExceed (current total : Int) : Msg
  | returnSuccess (returned current : Int) (status : String) : Msg
  | sensorMissingWeight : Msg
  | sensorNoTool : Msg
  | sensorSuccess (weight : ℚ) (estimated current : Int) (status : String) : Msg
  | inventoryChanged (oldQty newQty : Int) (status : String) : Msg
deriving DecidableEq, Repr

/-- The collaborator invocations of `record_handler.py` a handler performs. -/
inductive RecordCall where
  | borrowRec (quantity : Int) : RecordCall
  | returnRec (quantity : Int) : RecordCall
deriving DecidableEq, Repr

/-- One observable step of a handler, in program order:
`personal` is `manager.send_personal_message` to the requesting connection,
`broadcastAll` is `manager.broadcast`, `recordCall` is the (try/except
guarded) call into the history collaborator. -/
inductive Event where
  | personal (m : Msg) : Event
  | broadcastAll (m : Msg) : Event
  | recordCall (c : RecordCall) : Event
deriving DecidableEq, Repr

/-- `manager.broadcast` (`websocket_server.py` lines 64-75): sends the
message to every currently registered connection, the requester included. -/
def broadcast (conns : List Nat) (m : Msg) : List (Nat × Msg) :=
  conns.map (fun c => (c, m))

/-- Status recomputation shared verbatim by the three mutating handlers
(`websocket_server.py` lines 275-280, 392-397, 511-516). -/
def computeStatus (cq threshold : Int) : String :=
  if cq ≤ 0 then "无库存"
  else if cq ≤ threshold then "低库存"
  else "正常"

/-- Python `int()` applied to a real quantity: truncation toward zero,
computed as the truncating integer division of the rational's numerator by
its (positive) denominator. -/
def pyInt (q : ℚ) : Int :=
  q.num.tdiv q.den

/-- The range limiting of `sensor_update` (`websocket_server.py` lines
504-508): below 0 becomes 0, above the total becomes the total. -/
def clampQty (total x : Int) : Int :=
  if x < 0 then 0 else if x > total then total else x

/-- The division-by-zero guard of `sensor_update` (lines 491-493): a
non-positive `unit_weight` is reset to the default `100.0` before use. -/
def heal_unit_weight (u : ℚ) : ℚ :=
  if u ≤ 0 then 100 else u

/-- `create_borrow_record` (`record_handler.py` lines 44-76): appends a new
"借出" record with empty return time.  Records are kept oldest-first. -/
def create_borrow_record (records : List RecordEntry) (quantity : Int)
    (now : Nat) : List RecordEntry :=
  records ++ [{ employee_id := 1, tool_id := 1, action := "借出",
                quantity := quantity, borrow_time := now, return_time := none }]

/-- The filter of `create_return_record` (lines 92-95): a "借出" record not
yet returned. -/
def isUnreturnedBorrow (r : RecordEntry) : Bool :=
  r.action == "借出" && r.return_time.isNone

/-- Index of the un-returned borrow record with the greatest borrow time,
modelling `order_by(borrow_time.desc()).first()`; the source leaves the
order of equal times to the database, the model picks the latest inserted. -/
def latestUnreturnedIdx (records : List RecordEntry) : Option Nat :=
  ((records.enum.filter (fun p => isUnreturnedBorrow p.2)).foldl
    (fun acc p =>
      match acc with
      | none => some p
      | some q => if q.2.borrow_time ≤ p.2.borrow_time then some p else some q)
    none).map (fun p => p.1)

/-- `create_return_record` (`record_handler.py` lines 79-130): marks the
most recent un-returned borrow record as returned, or, when none exists,
appends a fresh "归还" record. -/
def create_return_record (records : List RecordEntry) (quantity : Int)
    (now : Nat) : List RecordEntry :=
  match latestUnreturnedIdx records with
  | some i =>
      records.mapIdx (fun j r =>
        if j = i then { r with action := "归还", return_time := some now } else r)
  | none =>
      records ++ [{ employee_id := 1, tool_id := 1, action := "归还",
                    quantity := quantity, borrow_time := now,
                    return_time := some now }]

/-- `borrow_tool` (`websocket_server.py` lines 221-335).  `tool?` is the
result of the `Tool` query, `quantity?` the optional `quantity` field
(`message.get("quantity", 1)`), `now` the clock, `recordFails` whether the
collaborator call raises (the exception is caught at lines 290-293, so only
the records table differs).  Returns the committed (tool, records) state
and the emitted events in program order: the collaborator call happens
before the success reply and the broadcast. -/
def borrow_tool (tool? : Option Tool) (records : List RecordEntry)
    (quantity? : Option Int) (now : Nat) (recordFails : Bool) :
    (Option Tool × List RecordEntry) × List Event :=
  let quantity := quantity?.getD 1
  if quantity ≤ 0 then
    ((tool?, records), [Event.personal Msg.borrowInvalidQty])
  else
    match tool? with
    | none => ((none, records), [Event.personal Msg.borrowNoTool])
    | some tool =>
      if tool.current_quantity < quantity then
        ((some tool, records),
         [Event.personal (Msg.borrowInsufficient tool.current_quantity)])
      else
        let old_quantity := tool.current_quantity
        let newQty := tool.current_quantity - quantity
        let st := computeStatus newQty tool.threshold
        let tool' := { tool with
          current_quantity := newQty
          status := st
          last_updated := now }
        let records' :=
          if recordFails then records else create_borrow_record records quantity now
        ((some tool', records'),
         [Event.recordCall (RecordCall.borrowRec quantity),
          Event.personal (Msg.borrowSuccess quantity newQty st),
          Event.broadcastAll (Msg.inventoryChanged old_quantity newQty st)])

/-- `return_tool` (`websocket_server.py` lines 338-452), same conventions
as `borrow_tool`. -/
def return_tool (tool? : Option Tool) (records : List RecordEntry)
    (quantity? : Option Int) (now : Nat) (recordFails : Bool) :
    (Option Tool × List RecordEntry) × List Event :=
  let quantity := quantity?.getD 1
  if quantity ≤ 0 then
    ((tool?, records), [Event.personal Msg.returnInvalidQty])
  else
    match tool? with
    | none => ((none, records), [Event.personal Msg.returnNoTool])
    | some tool =>
      if tool.current_quantity + quantity > tool.total_quantity then
        ((some tool, records),
         [Event.personal (Msg.returnExceed tool.current_quantity tool.total_quantity)])
      else
        let old_quantity := tool.current_quantity
        let newQty := tool.current_quantity + quantity
        let st := computeStatus newQty tool.threshold
        let tool' := { tool with
          current_quantity := newQty
          status := st
          last_updated := now }
        let records' :=
          if recordFails then records else create_return_record records quantity now
        ((some tool', records'),
         [Event.recordCall (RecordCall.returnRec quantity),
          Event.personal (Msg.returnSuccess quantity newQty st),
          Event.broadcastAll (Msg.inventoryChanged old_quantity newQty st)])

/-- `sensor_update` (`websocket_server.py` lines 455-566).  `weight?` is the
optional `current_weight` field; the estimated quantity is Python
`int(current_weight / unit_weight)` after the unit-weight self-heal, then
clamped into `[0, total_quantity]`; the broadcast is emitted only when the
committed quantity differs from the old one. -/
def sensor_update (tool? : Option Tool) (records : List RecordEntry)
    (weight? : Option ℚ) (now : Nat) :
    (Option Tool × List RecordEntry) × List Event :=
  match weight? with
  | none => ((tool?, records), [Event.personal Msg.sensorMissingWeight])
  | some current_weight =>
    match tool? with
    | none => ((none, records), [Event.personal Msg.sensorNoTool])
    | some tool =>
      let unit_weight := heal_unit_weight tool.unit_weight
      let estimated_quantity := pyInt (current_weight / unit_weight)
      let old_quantity := tool.current_quantity
      let newQty := clampQty tool.total_quantity estimated_quantity
      let st := computeStatus newQty tool.threshold
      let tool' := { tool with
        unit_weight := unit_weight
        current_quantity := newQty
        status := st
        last_updated := now }
      let reply :=
        Event.personal (Msg.sensorSuccess current_weight estimated_quantity newQty st)
      let evs :=
        if old_quantity ≠ newQty then
          [reply, Event.broadcastAll (Msg.inventoryChanged old_quantity newQty st)]
        else [reply]
      ((some tool', records), evs)

/-- The column defaults of `app/models.py` (`class Tool`): the state the
singleton row is created with. -/
def initialTool : Tool :=
  { total_quantity := 10, current_quantity := 10, threshold := 2,
    unit_weight := 100, status := "正常", last_updated := 0 }

/-- The status function as the spec words it: Empty ("无库存") exactly when
the quantity is 0, Low ("低库存") exactly when it is positive and at most
the threshold, Normal ("正常") otherwise.  Stated from the spec, to be
compared with `computeStatus`, which is taken from the code. -/
def specStatus (cq threshold : Int) : String :=
  if cq = 0 then "无库存"
  else if 0 < cq ∧ cq ≤ threshold then "低库存"
  else "正常"

/-- Tool states reachable from the initial row through the three mutating
handlers, with arbitrary request contents (including rejected requests, in
which the state passes through unchanged). -/
inductive Reachable : Tool → Prop where
  | init : Reachable initialTool
  | borrowStep (t t' : Tool) (recs : List RecordEntry) (q? : Option Int)
      (now : Nat) (rf : Bool) : Reachable t →
      ((borrow_tool (some t) recs q? now rf).1).1 = some t' → Reachable t'
  | returnStep (t t' : Tool) (recs : List RecordEntry) (q? : Option Int)
      (now : Nat) (rf : Bool) : Reachable t →
      ((return_tool (some t) recs q? now rf).1).1 = some t' → Reachable t'
  | sensorStep (t t' : Tool) (recs : List RecordEntry) (w? : Option ℚ)
      (now : Nat) : Reachable t →
      ((sensor_update (some t) recs w? now).1).1 = some t' → Reachable t'

/-- The invariant the mutating handlers maintain on the tool row. -/
def ToolInv (t : Tool) : Prop :=
  0 ≤ t.total_quantity ∧ 0 ≤ t.current_quantity ∧
    t.current_quantity ≤ t.total_quantity ∧
    t.status = computeStatus t.current_quantity t.threshold

/-- A Borrow or Return request, for stating properties of request
sequences. -/
inductive BRop where
  | borrowOp (q : Int) : BRop
  | returnOp (q : Int) : BRop
deriving DecidableEq, Repr

/-- A request quantity is valid when positive. -/
def BRop.valid : BRop → Bool
  | .borrowOp q => 0 < q
  | .returnOp q => 0 < q

/-- Run one Borrow/Return request against a tool state and keep the
committed state (the handlers always return the row when given one). -/
def applyBR (t : Tool) : BRop → Tool
  | .borrowOp q => (((borrow_tool (some t) [] (some q) 0 false).1).1).getD t
  | .returnOp q => (((return_tool (some t) [] (some q) 0 false).1).1).getD t

/-- Run a sequence of Borrow/Return requests in order. -/
def applyBRs (t : Tool) (ops : List BRop) : Tool :=
  ops.foldl applyBR t

/-- Whether an event is a `manager.broadcast`. -/
def Event.isBroadcast : Event → Bool
  | .broadcastAll _ => true
  | _ => false

/-- Whether an event is a unicast message to the requesting connection. -/
def Event.isPersonal : Event → Bool
  | .personal _ => true
  | _ => false

/-- Whether an event is an invocation of the history collaborator. -/
def Event.isRecordInvocation : Event → Bool
  | .recordCall _ => true
  | _ => false

/-- Whether an event is a success reply to the requester. -/
def Event.isSuccessReply : Event → Bool
  | .personal (.borrowSuccess _ _ _) => true
  | .personal (.returnSuccess _ _ _) => true
  | .personal (.sensorSuccess _ _ _ _) => true
  | _ => false

/-- Number of broadcasts in an event trace. -/
def broadcastCount (evs : List Event) : Nat :=
  (evs.filter Event.isBroadcast).length

/-! Arithmetic facts about the truncation, clamping and status functions. -/

theorem pyInt_eq_floor (q : ℚ) (hq : 0 ≤ q) : pyInt q = ⌊q⌋ := by
  rw [pyInt, Rat.floor_def, Int.tdiv_eq_ediv (Rat.num_nonneg.mpr hq) (by positivity)]

theorem pyInt_nonpos (q : ℚ) (hq : q ≤ 0) : pyInt q ≤ 0 := by
  have hnum : q.num ≤ 0 := Rat.num_nonpos.mpr hq
  have h1 : (0 : Int) ≤ (-q.num).tdiv q.den :=
    Int.tdiv_nonneg (by omega) (by positivity)
  rw [Int.neg_tdiv] at h1
  rw [pyInt]
  omega

theorem pyInt_eq_ceil (q : ℚ) (hq : q ≤ 0) : pyInt q = ⌈q⌉ := by
  have hnum : q.num ≤ 0 := Rat.num_nonpos.mpr hq
  have h1 : q.num.tdiv q.den = -((-q.num).tdiv q.den) := by
    rw [Int.neg_tdiv, neg_neg]
  have h2 : (-q.num).tdiv q.den = (-q.num) / (q.den : Int) :=
    Int.tdiv_eq_ediv (by omega) (by positivity)
  have h3 : ⌈q⌉ = -⌊-q⌋ := by rw [Int.floor_neg, neg_neg]
  rw [pyInt, h1, h2, h3, Rat.floor_def, Rat.neg_num, Rat.neg_den]

theorem clampQty_of_nonpos (T x : Int) (hx : x ≤ 0) (hT : 0 ≤ T) :
    clampQty T x = 0 := by
  unfold clampQty
  split
  · rfl
  · split <;> omega

theorem clampQty_mem (T x : Int) (hT : 0 ≤ T) :
    0 ≤ clampQty T x ∧ clampQty T x ≤ T := by
  unfold clampQty
  split
  · omega
  · split <;> omega

theorem clampQty_pyInt_eq_floor (T : Int) (q : ℚ) (hT : 0 ≤ T) :
    clampQty T (pyInt q) = clampQty T ⌊q⌋ := by
  rcases le_or_lt 0 q with h | h
  · rw [pyInt_eq_floor q h]
  · have h1 : pyInt q ≤ 0 := pyInt_nonpos q h.le
    have h2 : ⌊q⌋ ≤ 0 := by
      calc ⌊q⌋ ≤ ⌊(0 : ℚ)⌋ := Int.floor_le_floor h.le
      _ = 0 := Int.floor_zero
    rw [clampQty_of_nonpos T _ h1 hT, clampQty_of_nonpos T _ h2 hT]

theorem computeStatus_eq_specStatus (cq thr : Int) (h : 0 ≤ cq) :
    computeStatus cq thr = specStatus cq thr := by
  unfold computeStatus specStatus
  rcases eq_or_lt_of_le h with h0 | h0
  · simp [← h0]
  · by_cases hthr : cq ≤ thr
    · simp [hthr, h0, h0.ne', not_le.mpr h0]
    · simp [hthr, h0, h0.ne', not_le.mpr h0]

/-! Case analyses of the three handlers' committed states. -/

theorem borrow_tool_state_cases (t : Tool) (recs : List RecordEntry)
    (q? : Option Int) (now : Nat) (rf : Bool) (t' : Tool)
    (h : ((borrow_tool (some t) recs q? now rf).1).1 = some t') :
    t' = t ∨
      (¬ q?.getD 1 ≤ 0 ∧ ¬ t.current_quantity < q?.getD 1 ∧
        t' = { t with
          current_quantity := t.current_quantity - q?.getD 1
          status := computeStatus (t.current_quantity - q?.getD 1) t.threshold
          last_updated := now }) := by
  unfold borrow_tool at h
  dsimp only at h
  split at h
  · left
    dsimp only at h
    exact (Option.some.inj h).symm
  · split at h
    · left
      dsimp only at h
      exact (Option.some.inj h).symm
    · right
      dsimp only at h
      refine ⟨by assumption, by assumption, (Option.some.inj h).symm⟩

theorem return_tool_state_cases (t : Tool) (recs : List RecordEntry)
    (q? : Option Int) (now : Nat) (rf : Bool) (t' : Tool)
    (h : ((return_tool (some t) recs q? now rf).1).1 = some t') :
    t' = t ∨
      (¬ q?.getD 1 ≤ 0 ∧
        ¬ t.current_quantity + q?.getD 1 > t.total_quantity ∧
        t' = { t with
          current_quantity := t.current_quantity + q?.getD 1
          status := computeStatus (t.current_quantity + q?.getD 1) t.threshold
          last_updated := now }) := by
  unfold return_tool at h
  dsimp only at h
  split at h
  · left
    dsimp only at h
    exact (Option.some.inj h).symm
  · split at h
    · left
      dsimp only at h
      exact (Option.some.inj h).symm
    · right
      dsimp only at h
      refine ⟨by assumption, by assumption, (Option.some.inj h).symm⟩

theorem sensor_update_state_cases (t : Tool) (recs : List RecordEntry)
    (w? : Option ℚ) (now : Nat) (t' : Tool)
    (h : ((sensor_update (some t) recs w? now).1).1 = some t') :
    t' = t ∨ ∃ w, w? = some w ∧
      t' = { t with
        unit_weight := heal_unit_weight t.unit_weight
        current_quantity :=
          clampQty t.total_quantity (pyInt (w / heal_unit_weight t.unit_weight))
        status := computeStatus
          (clampQty t.total_quantity (pyInt (w / heal_unit_weight t.unit_weight)))
          t.threshold
        last_updated := now } := by
  unfold sensor_update at h
  cases w? with
  | none =>
    left
    dsimp only at h
    exact (Option.some.inj h).symm
  | some w =>
    right
    dsimp only at h
    exact ⟨w, rfl, (Option.some.inj h).symm⟩

/-! Invariant preservation and reachability. -/

theorem borrow_tool_preserves_ToolInv (t : Tool) (recs : List RecordEntry)
    (q? : Option Int) (now : Nat) (rf : Bool) (t' : Tool)
    (h : ((borrow_tool (some t) recs q? now rf).1).1 = some t')
    (hI : ToolInv t) : ToolInv t' := by
  obtain ⟨h1, h2, h3, h4⟩ := hI
  rcases borrow_tool_state_cases t recs q? now rf t' h with he | ⟨hq, hcq, he⟩
  · exact he ▸ ⟨h1, h2, h3, h4⟩
  · subst he
    exact ⟨h1, by dsimp; omega, by dsimp; omega, rfl⟩

theorem return_tool_preserves_ToolInv (t : Tool) (recs : List RecordEntry)
    (q? : Option Int) (now : Nat) (rf : Bool) (t' : Tool)
    (h : ((return_tool (some t) recs q? now rf).1).1 = some t')
    (hI : ToolInv t) : ToolInv t' := by
  obtain ⟨h1, h2, h3, h4⟩ := hI
  rcases return_tool_state_cases t recs q? now rf t' h with he | ⟨hq, hcq, he⟩
  · exact he ▸ ⟨h1, h2, h3, h4⟩
  · subst he
    exact ⟨h1, by dsimp; omega, by dsimp; omega, rfl⟩

theorem sensor_update_preserves_ToolInv (t : Tool) (recs : List RecordEntry)
    (w? : Option ℚ) (now : Nat) (t' : Tool)
    (h : ((sensor_update (some t) recs w? now).1).1 = some t')
    (hI : ToolInv t) : ToolInv t' := by
  obtain ⟨h1, h2, h3, h4⟩ := hI
  rcases sensor_update_state_cases t recs w? now t' h with he | ⟨w, _, he⟩
  · exact he ▸ ⟨h1, h2, h3, h4⟩
  · subst he
    have hc := clampQty_mem t.total_quantity
      (pyInt (w / heal_unit_weight t.unit_weight)) h1
    exact ⟨h1, by dsimp; omega, by dsimp; omega, rfl⟩

theorem reachable_ToolInv (t : Tool) (h : Reachable t) : ToolInv t := by
  induction h with
  | init => exact ⟨by decide, by decide, by decide, by decide⟩
  | borrowStep t t' recs q? now rf _ hstep ih =>
    exact borrow_tool_preserves_ToolInv t recs q? now rf t' hstep ih
  | returnStep t t' recs q? now rf _ hstep ih =>
    exact return_tool_preserves_ToolInv t recs q? now rf t' hstep ih
  | sensorStep t t' recs w? now _ hstep ih =>
    exact sensor_update_preserves_ToolInv t recs w? now t' hstep ih

/-! Quantity-range preservation over Borrow/Return sequences. -/

theorem applyBR_qty_range (t : Tool) (op : BRop)
    (h : 0 ≤ t.current_quantity ∧ t.current_quantity ≤ t.total_quantity) :
    0 ≤ (applyBR t op).current_quantity ∧
      (applyBR t op).current_quantity ≤ (applyBR t op).total_quantity := by
  cases op with
  | borrowOp q =>
    unfold applyBR
    dsimp only
    rcases hE : ((borrow_tool (some t) [] (some q) 0 false).1).1 with _ | t'
    · simpa using h
    · simp only [Option.getD_some]
      rcases borrow_tool_state_cases t [] (some q) 0 false t' hE with he | ⟨hq, hcq, he⟩
      · subst he; exact h
      · subst he
        simp only [Option.getD_some] at hq hcq
        constructor <;> dsimp <;> omega
  | returnOp q =>
    unfold applyBR
    dsimp only
    rcases hE : ((return_tool (some t) [] (some q) 0 false).1).1 with _ | t'
    · simpa using h
    · simp only [Option.getD_some]
      rcases return_tool_state_cases t [] (some q) 0 false t' hE with he | ⟨hq, hcq, he⟩
      · subst he; exact h
      · subst he
        simp only [Option.getD_some] at hq hcq
        constructor <;> dsimp <;> omega

theorem applyBRs_qty_range (ops : List BRop) (t : Tool)
    (h : 0 ≤ t.current_quantity ∧ t.current_quantity ≤ t.total_quantity) :
    0 ≤ (applyBRs t ops).current_quantity ∧
      (applyBRs t ops).current_quantity ≤ (applyBRs t ops).total_quantity := by
  induction ops generalizing t with
  | nil => exact h
  | cons op ops ih =>
    exact ih (applyBR t op) (applyBR_qty_range t op h)

/-! Characterizations of the sensor handler's output. -/

theorem sensor_update_commits (t : Tool) (recs : List RecordEntry) (w : ℚ)
    (now : Nat) :
    ((sensor_update (some t) recs (some w) now).1).1 = some { t with
        unit_weight := heal_unit_weight t.unit_weight
        current_quantity :=
          clampQty t.total_quantity (pyInt (w / heal_unit_weight t.unit_weight))
        status := computeStatus
          (clampQty t.total_quantity (pyInt (w / heal_unit_weight t.unit_weight)))
          t.threshold
        last_updated := now } ∧
      (sensor_update (some t) recs (some w) now).2.head? =
        some (Event.personal (Msg.sensorSuccess w
          (pyInt (w / heal_unit_weight t.unit_weight))
          (clampQty t.total_quantity (pyInt (w / heal_unit_weight t.unit_weight)))
          (computeStatus
            (clampQty t.total_quantity (pyInt (w / heal_unit_weight t.unit_weight)))
            t.threshold))) := by
  constructor
  · rfl
  · unfold sensor_update
    dsimp only
    split <;> rfl

theorem sensor_update_events (t : Tool) (recs : List RecordEntry) (w : ℚ)
    (now : Nat) :
    (sensor_update (some t) recs (some w) now).2 =
      (if t.current_quantity ≠
          clampQty t.total_quantity (pyInt (w / heal_unit_weight t.unit_weight)) then
        [Event.personal (Msg.sensorSuccess w
            (pyInt (w / heal_unit_weight t.unit_weight))
            (clampQty t.total_quantity (pyInt (w / heal_unit_weight t.unit_weight)))
            (computeStatus
              (clampQty t.total_quantity (pyInt (w / heal_unit_weight t.unit_weight)))
              t.threshold)),
         Event.broadcastAll (Msg.inventoryChanged t.current_quantity
            (clampQty t.total_quantity (pyInt (w / heal_unit_weight t.unit_weight)))
            (computeStatus
              (clampQty t.total_quantity (pyInt (w / heal_unit_weight t.unit_weight)))
              t.threshold))]
      else
        [Event.personal (Msg.sensorSuccess w
            (pyInt (w / heal_unit_weight t.unit_weight))
            (clampQty t.total_quantity (pyInt (w / heal_unit_weight t.unit_weight)))
            (computeStatus
              (clampQty t.total_quantity (pyInt (w / heal_unit_weight t.unit_weight)))
              t.threshold))]) := rfl

theorem heal_unit_weight_initial :
    heal_unit_weight initialTool.unit_weight = 100 := by
  simp only [initialTool]
  norm_num [heal_unit_weight]

theorem pyInt_initial_1200 :
    pyInt ((1200 : ℚ) / heal_unit_weight initialTool.unit_weight) = 12 := by
  rw [heal_unit_weight_initial, pyInt_eq_floor _ (by norm_num)]
  norm_num

/-! The claims. -/

/-- C1: for every sequence of Borrow and Return operations with valid
(positive) quantities, started from a state with
`0 ≤ currentQuantity ≤ totalQuantity`, the current quantity stays within
`[0, totalQuantity]` after each operation, whether the operation succeeds
or is rejected. -/
theorem borrow_return_quantity_invariant (ops : List BRop) (t : Tool)
    (_hval : ∀ op ∈ ops, op.valid = true)
    (h0 : 0 ≤ t.current_quantity)
    (h1 : t.current_quantity ≤ t.total_quantity) (n : Nat) :
    0 ≤ (applyBRs t (ops.take n)).current_quantity ∧
      (applyBRs t (ops.take n)).current_quantity ≤
        (applyBRs t (ops.take n)).total_quantity :=
  applyBRs_qty_range (ops.take n) t ⟨h0, h1⟩

/-- C1 witness: the invariant evaluated after the first of the two valid
operations borrow 3 then return 2 from the initial tool. -/
theorem borrow_return_quantity_invariant_witness :
    0 ≤ (applyBRs initialTool
        ([BRop.borrowOp 3, BRop.returnOp 2].take 1)).current_quantity ∧
      (applyBRs initialTool
          ([BRop.borrowOp 3, BRop.returnOp 2].take 1)).current_quantity ≤
        (applyBRs initialTool
          ([BRop.borrowOp 3, BRop.returnOp 2].take 1)).total_quantity :=
  borrow_return_quantity_invariant [BRop.borrowOp 3, BRop.returnOp 2]
    initialTool (by decide) (by decide) (by decide) 1

/-- C2: in every reachable state of the inventory the stored status string
equals the spec's pure function of current quantity and threshold (Empty
exactly at 0, Low exactly on (0, threshold], Normal otherwise), and it
equals the recomputation function every mutation applies, so it never
drifts from that function. -/
theorem reachable_status_eq_specStatus (t : Tool) (h : Reachable t) :
    t.status = specStatus t.current_quantity t.threshold ∧
      t.status = computeStatus t.current_quantity t.threshold := by
  obtain ⟨_, hcq, _, hst⟩ := reachable_ToolInv t h
  exact ⟨hst.trans (computeStatus_eq_specStatus _ _ hcq), hst⟩

/-- C2 witness: the status law evaluated at the initial (reachable) state. -/
theorem reachable_status_eq_specStatus_witness :
    initialTool.status =
        specStatus initialTool.current_quantity initialTool.threshold ∧
      initialTool.status =
        computeStatus initialTool.current_quantity initialTool.threshold :=
  reachable_status_eq_specStatus initialTool Reachable.init

/-- C3: a Borrow whose quantity exceeds the current stock fails with the
insufficient-stock reply reporting the actual remaining quantity, leaves
the tool row (quantity, status, last-updated) and the records unchanged,
sends only the one unicast failure reply to the requester, emits no
broadcast and never invokes the history collaborator. -/
theorem borrow_insufficient_rejected (t : Tool) (recs : List RecordEntry)
    (q : Int) (now : Nat) (rf : Bool)
    (h0 : 0 ≤ t.current_quantity) (h : t.current_quantity < q) :
    borrow_tool (some t) recs (some q) now rf =
      ((some t, recs),
        [Event.personal (Msg.borrowInsufficient t.current_quantity)]) := by
  have hq : ¬ q ≤ 0 := by omega
  unfold borrow_tool
  simp [hq, h]

/-- C3 witness: borrowing 11 from the initial stock of 10. -/
theorem borrow_insufficient_rejected_witness :
    borrow_tool (some initialTool) [] (some 11) 0 false =
      ((some initialTool, []),
        [Event.personal (Msg.borrowInsufficient initialTool.current_quantity)]) :=
  borrow_insufficient_rejected initialTool [] 11 0 false (by decide) (by decide)

/-- C4: a Return that would push the stock above the total capacity fails
with the would-exceed-capacity reply reporting the current and the total
quantity, leaves the tool row and the records unchanged, sends only the
one unicast failure reply to the requester, emits no broadcast and never
invokes the history collaborator. -/
theorem return_exceed_rejected (t : Tool) (recs : List RecordEntry)
    (q : Int) (now : Nat) (rf : Bool)
    (hle : t.current_quantity ≤ t.total_quantity)
    (h : t.total_quantity < t.current_quantity + q) :
    return_tool (some t) recs (some q) now rf =
      ((some t, recs),
        [Event.personal (Msg.returnExceed t.current_quantity t.total_quantity)]) := by
  have hq : ¬ q ≤ 0 := by omega
  unfold return_tool
  simp [hq, h]

/-- C4 witness: returning 1 to the initial full stock of 10 out of 10. -/
theorem return_exceed_rejected_witness :
    return_tool (some initialTool) [] (some 1) 0 false =
      ((some initialTool, []),
        [Event.personal (Msg.returnExceed initialTool.current_quantity
          initialTool.total_quantity)]) :=
  return_exceed_rejected initialTool [] 1 0 false (by decide) (by decide)

/-- C5: for every sensor update with a present weight and an initialized
tool the store-level mutation commits: the committed quantity is the floor
of the weight over the self-healed unit weight, clamped into
`[0, totalQuantity]`, and the success reply is emitted first; concretely,
weight 350 at unit weight 100 gives estimated quantity 3, and weight 1200
at total 10 commits the clamped quantity 10. -/
theorem sensor_update_commits_clamped_floor (t : Tool)
    (recs : List RecordEntry) (w : ℚ) (now : Nat)
    (htot : 0 ≤ t.total_quantity) :
    (∃ t', ((sensor_update (some t) recs (some w) now).1).1 = some t' ∧
        t'.current_quantity =
          clampQty t.total_quantity ⌊w / heal_unit_weight t.unit_weight⌋ ∧
        (sensor_update (some t) recs (some w) now).2.head? =
          some (Event.personal (Msg.sensorSuccess w
            (pyInt (w / heal_unit_weight t.unit_weight))
            t'.current_quantity t'.status))) ∧
      pyInt ((350 : ℚ) / heal_unit_weight initialTool.unit_weight) = 3 ∧
      ((sensor_update (some initialTool) [] (some 1200) 0).1).1.map
        Tool.current_quantity = some 10 := by
  have h100 := heal_unit_weight_initial
  refine ⟨?_, ?_, ?_⟩
  · obtain ⟨hc, he⟩ := sensor_update_commits t recs w now
    refine ⟨_, hc, ?_, he⟩
    dsimp
    exact clampQty_pyInt_eq_floor t.total_quantity _ htot
  · rw [h100, pyInt_eq_floor _ (by norm_num)]
    norm_num
  · rw [(sensor_update_commits initialTool [] 1200 0).1]
    simp only [Option.map_some']
    rw [pyInt_initial_1200]
    simp [initialTool, clampQty]

/-- C5 witness: the sensor theorem instantiated at the initial tool with
weight 350. -/
theorem sensor_update_commits_clamped_floor_witness :
    (∃ t', ((sensor_update (some initialTool) [] (some 350) 0).1).1 = some t' ∧
        t'.current_quantity =
          clampQty initialTool.total_quantity
            ⌊(350 : ℚ) / heal_unit_weight initialTool.unit_weight⌋ ∧
        (sensor_update (some initialTool) [] (some 350) 0).2.head? =
          some (Event.personal (Msg.sensorSuccess 350
            (pyInt ((350 : ℚ) / heal_unit_weight initialTool.unit_weight))
            t'.current_quantity t'.status))) ∧
      pyInt ((350 : ℚ) / heal_unit_weight initialTool.unit_weight) = 3 ∧
      ((sensor_update (some initialTool) [] (some 1200) 0).1).1.map
        Tool.current_quantity = some 10 :=
  sensor_update_commits_clamped_floor initialTool [] 350 0 (by decide)

/-- C6: an inventory-changed broadcast is emitted exactly once per
mutation, exactly when a Borrow or Return succeeds (always on success) or
a sensor update commits a quantity different from the previous one; a
sensor update whose computed quantity equals the prior quantity emits no
broadcast, and every broadcast reaches every connection registered at that
moment, the requester included. -/
theorem broadcast_exactly_once_per_mutation :
    (∀ (tool? : Option Tool) (recs : List RecordEntry) (q? : Option Int)
        (now : Nat) (rf : Bool),
      broadcastCount (borrow_tool tool? recs q? now rf).2 =
        if (borrow_tool tool? recs q? now rf).2.any Event.isSuccessReply
        then 1 else 0) ∧
    (∀ (tool? : Option Tool) (recs : List RecordEntry) (q? : Option Int)
        (now : Nat) (rf : Bool),
      broadcastCount (return_tool tool? recs q? now rf).2 =
        if (return_tool tool? recs q? now rf).2.any Event.isSuccessReply
        then 1 else 0) ∧
    (∀ (t : Tool) (recs : List RecordEntry) (w : ℚ) (now : Nat),
      ∃ t', ((sensor_update (some t) recs (some w) now).1).1 = some t' ∧
        broadcastCount (sensor_update (some t) recs (some w) now).2 =
          if t.current_quantity ≠ t'.current_quantity then 1 else 0) ∧
    (∀ (conns : List Nat) (m : Msg) (c : Nat),
      c ∈ conns → (c, m) ∈ broadcast conns m) := by
  refine ⟨?_, ?_, ?_, ?_⟩
  · intro tool? recs q? now rf
    unfold borrow_tool
    dsimp only
    split
    · rfl
    · match tool? with
      | none => rfl
      | some t =>
        dsimp only
        split <;> rfl
  · intro tool? recs q? now rf
    unfold return_tool
    dsimp only
    split
    · rfl
    · match tool? with
      | none => rfl
      | some t =>
        dsimp only
        split <;> rfl
  · intro t recs w now
    refine ⟨_, (sensor_update_commits t recs w now).1, ?_⟩
    rw [sensor_update_events]
    dsimp only
    split <;> rfl
  · intro conns m c hc
    exact List.mem_map_of_mem _ hc

/-- C6 witness: the borrow broadcast count at a concrete successful borrow
and delivery of a broadcast message to a registered connection. -/
theorem broadcast_exactly_once_per_mutation_witness :
    (broadcastCount (borrow_tool (some initialTool) [] (some 2) 0 false).2 =
      if (borrow_tool (some initialTool) [] (some 2) 0 false).2.any
          Event.isSuccessReply then 1 else 0) ∧
    ((0 : Nat), Msg.inventoryChanged 10 8 "正常") ∈
      broadcast [0, 7] (Msg.inventoryChanged 10 8 "正常") :=
  ⟨broadcast_exactly_once_per_mutation.1 (some initialTool) [] (some 2) 0 false,
   broadcast_exactly_once_per_mutation.2.2.2 [0, 7] _ 0 (by decide)⟩

/-- C7 counterexample: the claim says the handler first sends the success
reply, then broadcasts, and only then invokes the history collaborator; in
the code the collaborator call (line 291) precedes the reply (line 310)
and the broadcast (line 323), so on a successful borrow of 1 from the
initial tool the reply's index in the trace is not below the collaborator
invocation's index. -/
theorem borrow_history_before_reply_counterexample :
    ¬ ((borrow_tool (some initialTool) [] (some 1) 1 false).2.findIdx
          Event.isPersonal <
        (borrow_tool (some initialTool) [] (some 1) 1 false).2.findIdx
          Event.isRecordInvocation) := by
  decide

/-- C7 amended: on every successful Borrow the handler emits, in order,
the history-collaborator invocation, then the unicast success reply, then
the broadcast; a collaborator failure only loses the history record — the
committed tool state and both emitted messages are identical whether or
not the collaborator fails, so the failure never reverses the committed
quantity change and never alters the success reply. -/
theorem borrow_success_record_first (t : Tool) (recs : List RecordEntry)
    (q : Int) (now : Nat) (rf : Bool) (hq : 0 < q)
    (hle : q ≤ t.current_quantity) :
    borrow_tool (some t) recs (some q) now rf =
      ((some { t with
          current_quantity := t.current_quantity - q
          status := computeStatus (t.current_quantity - q) t.threshold
          last_updated := now },
        if rf then recs else create_borrow_record recs q now),
       [Event.recordCall (RecordCall.borrowRec q),
        Event.personal (Msg.borrowSuccess q (t.current_quantity - q)
          (computeStatus (t.current_quantity - q) t.threshold)),
        Event.broadcastAll (Msg.inventoryChanged t.current_quantity
          (t.current_quantity - q)
          (computeStatus (t.current_quantity - q) t.threshold))]) ∧
      ((borrow_tool (some t) recs (some q) now true).1).1 =
        ((borrow_tool (some t) recs (some q) now false).1).1 ∧
      (borrow_tool (some t) recs (some q) now true).2 =
        (borrow_tool (some t) recs (some q) now false).2 := by
  have h1 : ¬ q ≤ 0 := by omega
  have h2 : ¬ t.current_quantity < q := by omega
  unfold borrow_tool
  simp [h1, h2]

/-- C7 amended witness: collaborator failure leaves the committed state and
the emitted messages of a concrete successful borrow unchanged. -/
theorem borrow_success_record_first_witness :
    ((borrow_tool (some initialTool) [] (some 1) 1 true).1).1 =
        ((borrow_tool (some initialTool) [] (some 1) 1 false).1).1 ∧
      (borrow_tool (some initialTool) [] (some 1) 1 true).2 =
        (borrow_tool (some initialTool) [] (some 1) 1 false).2 :=
  (borrow_success_record_first initialTool [] 1 1 false (by decide)
    (by decide)).2

/-- C9: a borrow or return message that omits the quantity field is
handled exactly like one with quantity 1, and with enough stock (resp.
capacity) it proceeds to a successful one-unit borrow (resp. return)
instead of being rejected. -/
theorem missing_quantity_defaults_to_one (tool? : Option Tool)
    (recs : List RecordEntry) (now : Nat) (rf : Bool) :
    borrow_tool tool? recs none now rf =
        borrow_tool tool? recs (some 1) now rf ∧
      return_tool tool? recs none now rf =
        return_tool tool? recs (some 1) now rf ∧
      (∀ t : Tool, tool? = some t → 1 ≤ t.current_quantity →
        (borrow_tool tool? recs none now rf).2.any Event.isSuccessReply = true) ∧
      (∀ t : Tool, tool? = some t →
        t.current_quantity + 1 ≤ t.total_quantity →
        (return_tool tool? recs none now rf).2.any Event.isSuccessReply = true) := by
  refine ⟨rfl, rfl, ?_, ?_⟩
  · rintro t rfl h
    unfold borrow_tool
    simp only [Option.getD_none]
    rw [if_neg (by omega)]
    rw [if_neg (by omega)]
    rfl
  · rintro t rfl h
    unfold return_tool
    simp only [Option.getD_none]
    rw [if_neg (by omega)]
    rw [if_neg (by omega)]
    rfl

/-- C9 witness: a quantity-less borrow message on the initial tool equals
the quantity-1 borrow and succeeds. -/
theorem missing_quantity_defaults_to_one_witness :
    (borrow_tool (some initialTool) [] none 0 false =
        borrow_tool (some initialTool) [] (some 1) 0 false) ∧
      (borrow_tool (some initialTool) [] none 0 false).2.any
        Event.isSuccessReply = true :=
  ⟨(missing_quantity_defaults_to_one (some initialTool) [] 0 false).1,
   (missing_quantity_defaults_to_one (some initialTool) [] 0 false).2.2.1
     initialTool rfl (by decide)⟩

/-- C10 counterexample: the claim says the reply's estimated and current
quantity fields differ whenever the floor of weight over unit weight lies
outside `[0, totalQuantity]`; at weight -50 with unit weight 100 the floor
is -1, outside `[0, 10]`, yet Python `int()` truncates -0.5 to 0, so the
reply carries estimated 0 and current 0 — the two fields coincide. -/
theorem sensor_reply_fields_counterexample :
    ⌊(-50 : ℚ) / heal_unit_weight initialTool.unit_weight⌋ < 0 ∧
      (sensor_update (some { initialTool with
          current_quantity := 0
          status := "无库存" }) [] (some (-50)) 0).2 =
        [Event.personal (Msg.sensorSuccess (-50) 0 0 "无库存")] := by
  constructor
  · rw [heal_unit_weight_initial]
    norm_num
  · have hp : pyInt ((-50 : ℚ) / heal_unit_weight initialTool.unit_weight) = 0 := by
      rw [heal_unit_weight_initial, pyInt_eq_ceil _ (by norm_num)]
      norm_num
    rw [sensor_update_events]
    dsimp only
    rw [hp]
    simp [initialTool, clampQty, computeStatus]

/-- C10 amended: the sensor success reply carries in estimated_quantity
the pre-clamp truncated value `int(current_weight / unit_weight)` and in
current_quantity the clamped committed value, and whenever that truncated
value (rather than its floor) lies outside `[0, totalQuantity]` the two
fields differ, so estimated_quantity can exceed the total or be
negative. -/
theorem sensor_reply_estimated_vs_current (t : Tool)
    (recs : List RecordEntry) (w : ℚ) (now : Nat)
    (htot : 0 ≤ t.total_quantity) :
    (sensor_update (some t) recs (some w) now).2.head? =
        some (Event.personal (Msg.sensorSuccess w
          (pyInt (w / heal_unit_weight t.unit_weight))
          (clampQty t.total_quantity (pyInt (w / heal_unit_weight t.unit_weight)))
          (computeStatus
            (clampQty t.total_quantity
              (pyInt (w / heal_unit_weight t.unit_weight)))
            t.threshold))) ∧
      ((pyInt (w / heal_unit_weight t.unit_weight) < 0 ∨
          t.total_quantity < pyInt (w / heal_unit_weight t.unit_weight)) →
        pyInt (w / heal_unit_weight t.unit_weight) ≠
          clampQty t.total_quantity
            (pyInt (w / heal_unit_weight t.unit_weight))) := by
  refine ⟨(sensor_update_commits t recs w now).2, ?_⟩
  intro hout
  unfold clampQty
  rcases hout with h | h
  · rw [if_pos h]
    omega
  · rw [if_neg (by omega), if_pos (by omega)]
    omega

/-- C10 amended witness: at weight 1200 the truncated estimate 12 exceeds
the total 10 and differs from the clamped committed value. -/
theorem sensor_reply_estimated_vs_current_witness :
    (pyInt ((1200 : ℚ) / heal_unit_weight initialTool.unit_weight) < 0 ∨
        initialTool.total_quantity <
          pyInt ((1200 : ℚ) / heal_unit_weight initialTool.unit_weight)) ∧
      pyInt ((1200 : ℚ) / heal_unit_weight initialTool.unit_weight) ≠
        clampQty initialTool.total_quantity
          (pyInt ((1200 : ℚ) / heal_unit_weight initialTool.unit_weight)) := by
  have hout : pyInt ((1200 : ℚ) / heal_unit_weight initialTool.unit_weight) < 0 ∨
      initialTool.total_quantity <
        pyInt ((1200 : ℚ) / heal_unit_weight initialTool.unit_weight) := by
    rw [pyInt_initial_1200]
    right
    decide
  exact ⟨hout,
    (sensor_reply_estimated_vs_current initialTool [] 1200 0 (by decide)).2 hout⟩

end ToolHub
